import Mathlib

/-!
Verification of the ONNX `Loop` operator importer
(`src/ngraph/frontend/onnx_import/src/op/loop.cpp`).

The importer lowers an ONNX `Loop` node into an nGraph `Loop` construct.
We shallowly embed the importer: nGraph values are an inductive `Value`
(a null sentinel, opaque runtime nodes carrying their static shape when
known, i64/boolean constants with at least one data element, `LogicalOr`,
`Unsqueeze`, and the two loop-result node kinds the importer builds),
body parameters are opaque identifiers, and the importer itself is the
function `loop`, translated statement by statement from the source.
Observable effects (body-graph instantiation, the `NGRAPH_WARN`
diagnostic, execution of each `CHECK_VALID_NODE`) are recorded as an
event trace; `vector::at` on an empty vector and `CHECK_VALID_NODE`
failures are the two error outcomes.
-/

set_option autoImplicit false

namespace OnnxLoop

/-- An nGraph output value, as seen by the Loop importer.  Constants carry
their shape and a non-empty data vector (first element plus rest), matching
the reads `cast_vector<bool>()[0]` / `.at(0)` performed by the importer. -/
inductive Value where
  /-- The null sentinel node marking an omitted optional input. -/
  | null
  /-- An opaque graph value with an optional statically-known shape. -/
  | runtime (id : Nat) (shape : Option (List Nat))
  /-- An i64 constant (element type is not boolean). -/
  | constI64 (shape : List Nat) (fst : Int) (rest : List Int)
  /-- A boolean constant. -/
  | constBool (shape : List Nat) (fst : Bool) (rest : List Bool)
  /-- A `LogicalOr` node with its output shape and two operands. -/
  | logicalOr (shape : Option (List Nat)) (a b : Value)
  /-- An `Unsqueeze` node inserting one axis at the given position. -/
  | unsqueeze (v : Value) (axis : Nat)
  /-- `Loop::get_iter_value(v, iter)`: the value of a body output at the
  given iteration (`-1` meaning the last one). -/
  | iterValue (v : Value) (iter : Int)
  /-- `Loop::get_concatenated_slices(v, start, stride, part_size, stop, axis)`. -/
  | concatSlices (v : Value) (start stride part_size stop axis : Int)
  deriving DecidableEq, Repr

/-- `get_partial_shape()` of a value: `some s` models a fully static shape,
`none` a dynamic one.  Only the node kinds the importer queries need a
meaningful shape; the loop-result nodes are never queried and are dynamic. -/
def Value.shape : Value → Option (List Nat)
  | .null => none
  | .runtime _ s => s
  | .constI64 s _ _ => some s
  | .constBool s _ _ => some s
  | .logicalOr s _ _ => s
  | .unsqueeze v axis => (Value.shape v).map (fun s => s.take axis ++ 1 :: s.drop axis)
  | .iterValue _ _ => none
  | .concatSlices _ _ _ _ _ _ => none

/-- `ngraph::op::is_null`. -/
def is_null : Value → Bool
  | .null => true
  | _ => false

/-- `ngraph::op::is_constant`. -/
def is_constant : Value → Bool
  | .constI64 _ _ _ => true
  | .constBool _ _ _ => true
  | _ => false

/-- `as_type_ptr<Constant>(v)->cast_vector<bool>()[0]`: the first data
element of a constant, cast to `bool`.  Only called on constants. -/
def cast_vector_bool_first : Value → Bool
  | .constI64 _ f _ => f ≠ 0
  | .constBool _ f _ => f
  | _ => false

/-- The body sub-graph attribute: its outputs (`get_ng_outputs`) and its
parameters (`get_ng_parameters`, modelled as opaque identifiers). -/
structure Subgraph where
  outputs : List Value
  params : List Nat
  deriving DecidableEq, Repr

/-- An ONNX `Loop` node: inputs 0 and 1 (possibly the null sentinel), the
loop-carried dependency inputs (positions 2 onwards), and the `body`
attribute. -/
structure LoopOp where
  input0 : Value
  input1 : Value
  carried : List Value
  body : Subgraph
  deriving DecidableEq, Repr

/-- Observable events of one run of the importer, in program order. -/
inductive Event where
  /-- The body sub-graph attribute was fetched and converted
  (`get_attribute_value<Subgraph>` / `get_ng_outputs` / `get_ng_parameters`). -/
  | bodyInstantiated
  /-- The `NGRAPH_WARN` diagnostic about an unsupported termination
  condition output was emitted. -/
  | warnedUnsupportedCondition
  /-- The `CHECK_VALID_NODE` on the body parameter count was executed. -/
  | validatedParams
  /-- The `CHECK_VALID_NODE` on the body output count was executed. -/
  | validatedOutputs
  deriving DecidableEq, Repr

/-- Failure outcomes of the importer. -/
inductive LoopError where
  /-- `std::vector::at` on an out-of-range index. -/
  | outOfRange
  /-- The `CHECK_VALID_NODE` on the body parameter count failed
  (actual count, required minimum). -/
  | invalidParams (got required : Nat)
  /-- The `CHECK_VALID_NODE` on the body output count failed
  (actual count, required minimum). -/
  | invalidOutputs (got required : Nat)
  deriving DecidableEq, Repr

/-- The nGraph `Loop` node built by the general path, with the body
`Function` contents and all bindings made on it. -/
structure LoopNode where
  trip_count : Value
  termination_cond : Value
  /-- Results of the body `Function` (the final `body_outputs` vector). -/
  body_results : List Value
  /-- Parameters of the body `Function` (the `body_params` vector). -/
  body_params : List Nat
  /-- `SpecialBodyPorts{0, 0}`. -/
  special_ports : Nat × Nat
  /-- One `set_merged_input(param, initial, body_output)` call per carried
  dependency, in order. -/
  merged_inputs : List (Nat × Value × Value)
  deriving DecidableEq, Repr

/-- The importer's successful outcome: the node's output vector and the
`Loop` construct, when one was created. -/
structure LoopResult where
  outputs : List Value
  loop_node : Option LoopNode
  deriving DecidableEq, Repr

/-- `is_termination_condition_always_true` (loop.cpp lines 52-74): the body
condition output matches the boolean-identity pattern, i.e. it is a
`LogicalOr` whose second input is a boolean constant whose first element
is `false`. -/
def is_termination_condition_always_true (body_out_cond : Value) : Bool :=
  match body_out_cond with
  | .logicalOr _ _ second =>
    match second with
    | .constBool _ f _ => f == false
    | _ => false
  | _ => false

/-- The constant `Constant::create(element::boolean, {1}, {true})`. -/
def true_const : Value := Value.constBool [1] true []

/-- Lines 89-98: resolve the optional trip count (input 0); the null
sentinel becomes the i64 constant `{-1}` (infinite loop). -/
def resolve_trip_count (input0 : Value) : Value :=
  if is_null input0 then Value.constI64 [1] (-1) [] else input0

/-- Outcome of the input-1 branch chain (lines 100-140). -/
inductive CondResolution where
  /-- A concrete termination-condition value was chosen. -/
  | resolved (cond : Value)
  /-- Input 1 is a constant whose first element casts to `false`: the
  zero-iteration early return is taken. -/
  | fastPath
  deriving DecidableEq, Repr

/-- Lines 100-140: resolve the optional termination condition (input 1).
Null sentinel and non-constant values become the constant `{true}`; a
constant is classified by its first element: `true` becomes the constant
`{true}`, `false` signals the zero-iteration early return. -/
def resolve_termination_cond (input1 : Value) : CondResolution :=
  if is_null input1 then .resolved true_const
  else if is_constant input1 then
    if cast_vector_bool_first input1 then .resolved true_const
    else .fastPath
  else .resolved true_const

/-- `ngraph::is_scalar(shape.to_shape())` guarded by `shape.is_static()`:
the value's shape is statically known and of rank 0. -/
def is_static_scalar (v : Value) : Bool :=
  match v.shape with
  | some s => s.isEmpty
  | none => false

/-- Lines 146-155, one step per index: the element at overall position `i`
is wrapped in `Unsqueeze(·, {0})` when `i >= k + 1` and its shape is a
static scalar. -/
def normalize_scan_outputs_from (k : Nat) : Nat → List Value → List Value
  | _, [] => []
  | i, v :: rest =>
    (if k + 1 ≤ i ∧ is_static_scalar v then Value.unsqueeze v 0 else v)
      :: normalize_scan_outputs_from k (i + 1) rest

/-- Lines 146-155: scalar handling for scan outputs
(`for (int i = k + 1; i < body_outputs.size(); ++i) ...`). -/
def normalize_scan_outputs (k : Nat) (outs : List Value) : List Value :=
  normalize_scan_outputs_from k 0 outs

/-- Lines 142-230: the general (non-fast-path) branch of the importer,
given the already-resolved trip count and termination condition. -/
def loop_general (op : LoopOp) (trip_count termination_cond : Value) :
    List Event × Except LoopError LoopResult :=
  let k := op.carried.length
  let body_inputs := op.body.params
  let body_outputs := normalize_scan_outputs k op.body.outputs
  -- line 157: `body_outputs.at(0)` throws when the vector is empty
  if body_outputs.isEmpty then ([], .error .outOfRange)
  else
    let body_loop_out_cond := body_outputs.getD 0 Value.null
    -- lines 159-170: constant-fold the condition output, or warn
    let cond_always_true := is_termination_condition_always_true body_loop_out_cond
    let body_outputs := if cond_always_true then body_outputs.set 0 true_const else body_outputs
    let warn_events : List Event :=
      if cond_always_true then [] else [.warnedUnsupportedCondition]
    -- lines 172-180: CHECK_VALID_NODE on the body parameter count
    if op.carried.length + 2 ≤ body_inputs.length then
      -- lines 182-187: CHECK_VALID_NODE on the body output count
      if op.carried.length + 1 ≤ body_outputs.length then
        -- lines 189-191: parameters at positions >= 2, with body_inputs[0]
        -- emplaced at the front
        let body_params := body_inputs.getD 0 0 :: body_inputs.drop 2
        -- lines 204-210: one merged input and one final value per carried
        -- dependency, walking body_inputs from 2 and body_outputs from 1
        let final_outs := (body_outputs.drop 1).take k
        let merged_inputs := List.zip (body_inputs.drop 2) (List.zip op.carried final_outs)
        let final_values := final_outs.map (fun v => Value.iterValue v (-1))
        -- lines 212-219: remaining body outputs become concatenated slices
        -- with start=0, stride=1, part_size=1, end=-1, axis=0
        let scan_outputs := (body_outputs.drop (k + 1)).map
          (fun v => Value.concatSlices v 0 1 1 (-1) 0)
        let lp : LoopNode :=
          { trip_count := trip_count
            termination_cond := termination_cond
            body_results := body_outputs
            body_params := body_params
            special_ports := (0, 0)
            merged_inputs := merged_inputs }
        (warn_events ++ [.validatedParams, .validatedOutputs],
          .ok { outputs := final_values ++ scan_outputs, loop_node := some lp })
      else
        (warn_events ++ [.validatedParams, .validatedOutputs],
          .error (.invalidOutputs body_outputs.length (op.carried.length + 1)))
    else
      (warn_events ++ [.validatedParams],
        .error (.invalidParams body_inputs.length (op.carried.length + 2)))

/-- `op::set_1::loop` (loop.cpp lines 77-231).  The body sub-graph is
fetched and converted (lines 84-86) before the optional inputs are
resolved; a constant-`false` input 1 returns the carried dependencies
twice without building a loop (lines 117-132); every other case proceeds
to the general branch. -/
def loop (op : LoopOp) : List Event × Except LoopError LoopResult :=
  let trip_count := resolve_trip_count op.input0
  match resolve_termination_cond op.input1 with
  | .fastPath =>
    ([.bodyInstantiated],
      .ok { outputs := op.carried ++ op.carried, loop_node := none })
  | .resolved termination_cond =>
    let r := loop_general op trip_count termination_cond
    (.bodyInstantiated :: r.1, r.2)

/-- The body `Function` results produced by the general branch for a body
output list `b :: bs`: the condition output is folded to the constant
`{true}` exactly when it matches the identity pattern, and the tail is the
scan-normalized remainder. -/
def general_body_results (k : Nat) (b : Value) (bs : List Value) : List Value :=
  (if is_termination_condition_always_true b then true_const else b)
    :: normalize_scan_outputs_from k 1 bs

/-- The event trace of the general branch when both validations pass. -/
def general_trace (b : Value) : List Event :=
  (if is_termination_condition_always_true b then []
   else [Event.warnedUnsupportedCondition]) ++
    [Event.validatedParams, Event.validatedOutputs]

/-- The successful result of the general branch for a body output list
`b :: bs`, spelled out. -/
def general_result (op : LoopOp) (tc c b : Value) (bs : List Value) : LoopResult :=
  let k := op.carried.length
  let B := general_body_results k b bs
  { outputs :=
      ((B.drop 1).take k).map (fun v => Value.iterValue v (-1)) ++
        (B.drop (k + 1)).map (fun v => Value.concatSlices v 0 1 1 (-1) 0)
    loop_node := some
      { trip_count := tc
        termination_cond := c
        body_results := B
        body_params := op.body.params.getD 0 0 :: op.body.params.drop 2
        special_ports := (0, 0)
        merged_inputs := List.zip (op.body.params.drop 2)
          (List.zip op.carried ((B.drop 1).take k)) } }

/-- The parameter list of the body `Function` of the built loop, when one
was built. -/
def built_body_params (x : List Event × Except LoopError LoopResult) :
    Option (List Nat) :=
  match x.2 with
  | .ok r => r.loop_node.map (fun lp => lp.body_params)
  | .error _ => none

/-- A concrete operation for the C1 evaluation: one carried dependency,
body parameters `[10, 11, 12]` (10 = iteration number, 11 = termination
condition, 12 = the carried dependency) and two body outputs. -/
def c1_example : LoopOp :=
  { input0 := Value.null
    input1 := Value.null
    carried := [Value.runtime 100 (some [2])]
    body := { outputs := [Value.runtime 20 none, Value.runtime 21 (some [2])]
              params := [10, 11, 12] } }

/-- A concrete operation whose body has zero outputs (fewer than the
required `k + 1 = 1`) while its parameter count is valid. -/
def c2_example : LoopOp :=
  { input0 := Value.null
    input1 := Value.null
    carried := []
    body := { outputs := [], params := [10, 11] } }

/-- A concrete operation taking the zero-iteration fast path: input 1 is
the boolean constant `{false}`. -/
def c3_example : LoopOp :=
  { input0 := Value.null
    input1 := Value.constBool [] false []
    carried := [Value.runtime 100 (some [2])]
    body := { outputs := [Value.runtime 20 none, Value.runtime 21 (some [2])]
              params := [10, 11, 12] } }

/-- A concrete fast-path operation with two carried dependencies. -/
def c4_example : LoopOp :=
  { input0 := Value.runtime 7 (some [])
    input1 := Value.constBool [1] false []
    carried := [Value.runtime 100 (some [2]), Value.runtime 101 none]
    body := { outputs := [Value.runtime 20 none], params := [10, 11, 12, 13] } }

/-- A concrete general-path operation whose body condition output matches
the boolean-identity pattern (`LogicalOr` with a constant-`false` second
input). -/
def c5_example : LoopOp :=
  { input0 := Value.null
    input1 := Value.null
    carried := []
    body := { outputs :=
                [Value.logicalOr none (Value.runtime 30 none)
                  (Value.constBool [] false [])]
              params := [10, 11] } }

/-- A concrete general-path operation with one carried dependency and one
scalar scan output. -/
def c7_example : LoopOp :=
  { input0 := Value.runtime 7 (some [])
    input1 := Value.runtime 8 (some [])
    carried := [Value.runtime 100 (some [2])]
    body := { outputs := [Value.runtime 20 none, Value.runtime 21 (some [2]),
                          Value.runtime 22 (some [])]
              params := [10, 11, 12] } }

/-- An operation with the trip count omitted (input 0 is the null
sentinel). -/
def c9_null_example : LoopOp :=
  { input0 := Value.null
    input1 := Value.null
    carried := []
    body := { outputs := [], params := [] } }

/-- An operation with an explicit runtime trip count. -/
def c9_direct_example : LoopOp :=
  { input0 := Value.runtime 7 (some [])
    input1 := Value.null
    carried := []
    body := { outputs := [], params := [] } }

/-- A fast-path operation whose input 1 is a multi-element boolean
constant with first element `false`. -/
def c10_example : LoopOp :=
  { input0 := Value.null
    input1 := Value.constBool [3] false [true, true]
    carried := [Value.runtime 100 (some [2])]
    body := { outputs := [Value.runtime 20 none], params := [10, 11, 12] } }

/-! ## Basic lemmas about the embedded operations -/

theorem normalize_scan_outputs_from_length (k : Nat) (i : Nat) (l : List Value) :
    (normalize_scan_outputs_from k i l).length = l.length := by
  induction l generalizing i with
  | nil => rfl
  | cons v rest ih => simp [normalize_scan_outputs_from, ih]

theorem normalize_scan_outputs_length (k : Nat) (l : List Value) :
    (normalize_scan_outputs k l).length = l.length :=
  normalize_scan_outputs_from_length k 0 l

theorem is_static_scalar_null : is_static_scalar Value.null = false := rfl

theorem is_static_scalar_of_shape_nil (v : Value) (h : v.shape = some []) :
    is_static_scalar v = true := by
  unfold is_static_scalar
  rw [h]
  rfl

theorem is_static_scalar_eq_false_of_none (v : Value) (h : v.shape = none) :
    is_static_scalar v = false := by
  unfold is_static_scalar
  rw [h]

theorem is_static_scalar_eq_false_of_cons (v : Value) (d : Nat) (ds : List Nat)
    (h : v.shape = some (d :: ds)) : is_static_scalar v = false := by
  unfold is_static_scalar
  rw [h]
  rfl

theorem normalize_scan_outputs_from_getD (k : Nat) (i j : Nat) (l : List Value) :
    (normalize_scan_outputs_from k i l).getD j Value.null =
      (if k + 1 ≤ i + j ∧ is_static_scalar (l.getD j Value.null)
       then Value.unsqueeze (l.getD j Value.null) 0
       else l.getD j Value.null) := by
  induction l generalizing i j with
  | nil =>
    simp [normalize_scan_outputs_from, List.getD_nil, is_static_scalar, Value.shape]
  | cons v rest ih =>
    cases j with
    | zero => simp [normalize_scan_outputs_from, List.getD_cons_zero]
    | succ j =>
      have := ih (i + 1) j
      simp only [normalize_scan_outputs_from, List.getD_cons_succ, this]
      have harith : i + 1 + j = i + (j + 1) := by omega
      rw [harith]

theorem normalize_scan_outputs_getD (k : Nat) (j : Nat) (l : List Value) :
    (normalize_scan_outputs k l).getD j Value.null =
      (if k + 1 ≤ j ∧ is_static_scalar (l.getD j Value.null)
       then Value.unsqueeze (l.getD j Value.null) 0
       else l.getD j Value.null) := by
  have := normalize_scan_outputs_from_getD k 0 j l
  simpa [normalize_scan_outputs] using this

theorem resolve_fastPath_of (v : Value) (h1 : is_constant v = true)
    (h2 : cast_vector_bool_first v = false) :
    resolve_termination_cond v = CondResolution.fastPath := by
  cases v <;>
    simp_all [resolve_termination_cond, is_constant, is_null, cast_vector_bool_first]

theorem loop_eq_fastPath (op : LoopOp)
    (h : resolve_termination_cond op.input1 = CondResolution.fastPath) :
    loop op = ([Event.bodyInstantiated],
      Except.ok { outputs := op.carried ++ op.carried, loop_node := none }) := by
  unfold loop
  rw [h]

theorem loop_eq_resolved (op : LoopOp) (c : Value)
    (h : resolve_termination_cond op.input1 = CondResolution.resolved c) :
    loop op =
      (Event.bodyInstantiated ::
          (loop_general op (resolve_trip_count op.input0) c).1,
        (loop_general op (resolve_trip_count op.input0) c).2) := by
  unfold loop
  rw [h]

theorem loop_general_empty (op : LoopOp) (tc c : Value)
    (h : op.body.outputs = []) :
    loop_general op tc c = ([], Except.error LoopError.outOfRange) := by
  unfold loop_general
  rw [h]
  rfl

theorem loop_general_ok_eq (op : LoopOp) (tc c b : Value) (bs : List Value)
    (hout : op.body.outputs = b :: bs)
    (hp : op.carried.length + 2 ≤ op.body.params.length)
    (ho : op.carried.length + 1 ≤ op.body.outputs.length) :
    loop_general op tc c = (general_trace b, Except.ok (general_result op tc c b bs)) := by
  have hlen : (normalize_scan_outputs_from op.carried.length 1 bs).length = bs.length :=
    normalize_scan_outputs_from_length _ _ _
  have h0 : ¬(op.carried.length + 1 ≤ 0 ∧ is_static_scalar b = true) := by
    rintro ⟨hle, -⟩
    omega
  have ho2 : op.carried.length + 1 ≤ bs.length + 1 := by
    rw [hout] at ho
    simpa [Nat.add_comm] using ho
  unfold loop_general
  rw [hout]
  simp only [normalize_scan_outputs, normalize_scan_outputs_from, if_neg h0]
  cases hct : is_termination_condition_always_true b with
  | true =>
    simp only [general_trace, general_result, general_body_results, hct,
      List.isEmpty_cons, Bool.false_eq_true, if_false, if_true, List.getD_cons_zero,
      List.set_cons_zero, List.length_cons, hlen]
    rw [if_pos hp, if_pos (by omega)]
  | false =>
    simp only [general_trace, general_result, general_body_results, hct,
      List.isEmpty_cons, Bool.false_eq_true, if_false, List.getD_cons_zero,
      List.length_cons, hlen]
    rw [if_pos hp, if_pos (by omega)]

theorem loop_general_invalid_params (op : LoopOp) (tc c b : Value) (bs : List Value)
    (hout : op.body.outputs = b :: bs)
    (hp : op.body.params.length < op.carried.length + 2) :
    loop_general op tc c =
      ((if is_termination_condition_always_true b then []
        else [Event.warnedUnsupportedCondition]) ++ [Event.validatedParams],
        Except.error (LoopError.invalidParams op.body.params.length
          (op.carried.length + 2))) := by
  have h0 : ¬(op.carried.length + 1 ≤ 0 ∧ is_static_scalar b = true) := by
    rintro ⟨hle, -⟩
    omega
  unfold loop_general
  rw [hout]
  simp only [normalize_scan_outputs, normalize_scan_outputs_from, if_neg h0]
  cases hct : is_termination_condition_always_true b with
  | true =>
    simp only [hct, List.isEmpty_cons, Bool.false_eq_true, if_false, if_true,
      List.getD_cons_zero, List.set_cons_zero]
    rw [if_neg (by omega)]
  | false =>
    simp only [hct, List.isEmpty_cons, Bool.false_eq_true, if_false,
      List.getD_cons_zero]
    rw [if_neg (by omega)]

theorem loop_general_invalid_outputs (op : LoopOp) (tc c b : Value) (bs : List Value)
    (hout : op.body.outputs = b :: bs)
    (hp : op.carried.length + 2 ≤ op.body.params.length)
    (ho : op.body.outputs.length < op.carried.length + 1) :
    loop_general op tc c =
      (general_trace b,
        Except.error (LoopError.invalidOutputs op.body.outputs.length
          (op.carried.length + 1))) := by
  have hlen : (normalize_scan_outputs_from op.carried.length 1 bs).length = bs.length :=
    normalize_scan_outputs_from_length _ _ _
  have h0 : ¬(op.carried.length + 1 ≤ 0 ∧ is_static_scalar b = true) := by
    rintro ⟨hle, -⟩
    omega
  have ho2 : bs.length + 1 < op.carried.length + 1 := by
    rw [hout] at ho
    simpa [Nat.add_comm] using ho
  unfold loop_general
  rw [hout]
  simp only [normalize_scan_outputs, normalize_scan_outputs_from, if_neg h0]
  cases hct : is_termination_condition_always_true b with
  | true =>
    simp only [general_trace, hct, List.isEmpty_cons, Bool.false_eq_true, if_false,
      if_true, List.getD_cons_zero, List.set_cons_zero, List.length_cons, hlen]
    rw [if_pos hp, if_neg (by omega)]
  | false =>
    simp only [general_trace, hct, List.isEmpty_cons, Bool.false_eq_true, if_false,
      List.getD_cons_zero, List.length_cons, hlen]
    rw [if_pos hp, if_neg (by omega)]

theorem loop_general_ok_node (op : LoopOp) (tc c : Value) (r : LoopResult)
    (lp : LoopNode) (h : (loop_general op tc c).2 = Except.ok r)
    (h2 : r.loop_node = some lp) :
    lp.trip_count = tc ∧ lp.termination_cond = c := by
  by_cases hemp : op.body.outputs = []
  · rw [loop_general_empty op tc c hemp] at h
    exact Except.noConfusion h
  · obtain ⟨b, bs, hout⟩ := List.exists_cons_of_ne_nil hemp
    by_cases hp : op.carried.length + 2 ≤ op.body.params.length
    · by_cases ho : op.carried.length + 1 ≤ op.body.outputs.length
      · rw [loop_general_ok_eq op tc c b bs hout hp ho] at h
        injection h with h
        subst h
        simp only [general_result, Option.some.injEq] at h2
        subst h2
        exact ⟨rfl, rfl⟩
      · rw [loop_general_invalid_outputs op tc c b bs hout hp (by omega)] at h
        exact Except.noConfusion h
    · rw [loop_general_invalid_params op tc c b bs hout (by omega)] at h
      exact Except.noConfusion h

/-! ## The claims -/

/-- C1: the claim states that the executable body function's parameter
list is the body parameters at positions 2 and above with the condition
parameter (index 1) prepended.  Evaluating the importer at a concrete
operation whose body parameters are `[10, 11, 12]` (10 = iteration
number, 11 = termination condition, 12 = carried dependency) shows the
built parameter list is `[10, 12]`: the code prepends the parameter at
index 0 — the iteration number, by the code's own comment — not the
condition parameter at index 1, even though the comment on the prepending
line calls the prepended value the "termination condition body input". -/
theorem c1_body_params_eval :
    built_body_params (loop c1_example) = some [10, 12] ∧
    c1_example.body.params = [10, 11, 12] :=
  ⟨rfl, rfl⟩

/-- C2 counterexample: an operation on the general path whose body has
zero outputs (fewer than the required `k + 1 = 1`) does not produce the
structural validation error; the condition-output read `body_outputs.at(0)`
is reached first and raises an out-of-range access, and neither
`CHECK_VALID_NODE` is ever executed. -/
theorem c2_validation_counterexample :
    c2_example.body.outputs.length < c2_example.carried.length + 1 ∧
    (loop c2_example).2 = Except.error LoopError.outOfRange ∧
    Event.validatedParams ∉ (loop c2_example).1 ∧
    Event.validatedOutputs ∉ (loop c2_example).1 := by
  refine ⟨by decide, rfl, by decide, by decide⟩

/-- C2 (amended): on the general path the body-signature arity validation
runs before any indexing into the body's parameter list and before the
loop construct is built, and every body with a NON-EMPTY output list that
violates an arity bound produces the structural validation error (the
parameter check first); however, the body's output list is indexed at
position 0 (the condition-output read) before the validation, so a body
with an empty output list produces an out-of-range access instead of the
structural validation error. -/
theorem c2_validation_order (op : LoopOp)
    (hfp : resolve_termination_cond op.input1 ≠ CondResolution.fastPath) :
    (op.body.outputs = [] →
      (loop op).2 = Except.error LoopError.outOfRange ∧
      Event.validatedParams ∉ (loop op).1 ∧
      Event.validatedOutputs ∉ (loop op).1) ∧
    (op.body.outputs ≠ [] → op.body.params.length < op.carried.length + 2 →
      (loop op).2 = Except.error
        (LoopError.invalidParams op.body.params.length (op.carried.length + 2))) ∧
    (op.body.outputs ≠ [] → op.carried.length + 2 ≤ op.body.params.length →
      op.body.outputs.length < op.carried.length + 1 →
      (loop op).2 = Except.error
        (LoopError.invalidOutputs op.body.outputs.length (op.carried.length + 1))) := by
  cases hres : resolve_termination_cond op.input1 with
  | fastPath => exact absurd hres hfp
  | resolved c =>
    have hl := loop_eq_resolved op c hres
    refine ⟨?_, ?_, ?_⟩
    · intro hempty
      rw [hl, loop_general_empty op _ c hempty]
      exact ⟨rfl, by simp, by simp⟩
    · intro hne hp
      obtain ⟨b, bs, hout⟩ := List.exists_cons_of_ne_nil hne
      rw [hl, loop_general_invalid_params op _ c b bs hout hp]
    · intro hne hp ho
      obtain ⟨b, bs, hout⟩ := List.exists_cons_of_ne_nil hne
      rw [hl, loop_general_invalid_outputs op _ c b bs hout hp ho]

/-- Witness for C2's amended theorem at a concrete operation. -/
theorem c2_validation_order_witness :
    (loop c2_example).2 = Except.error LoopError.outOfRange :=
  ((c2_validation_order c2_example (by decide)).1 rfl).1

/-- C3 counterexample: the claim states that on the zero-iteration fast
path no body graph is instantiated.  At a concrete operation taking the
fast path (input 1 a constant `false`), the body sub-graph has
nevertheless been fetched and converted: lines 84-86 run before the
fast-path branch, so `bodyInstantiated` is in the trace. -/
theorem c3_fast_path_counterexample :
    is_constant c3_example.input1 = true ∧
    cast_vector_bool_first c3_example.input1 = false ∧
    (loop c3_example).2 = Except.ok
      { outputs := c3_example.carried ++ c3_example.carried, loop_node := none } ∧
    Event.bodyInstantiated ∈ (loop c3_example).1 := by
  refine ⟨rfl, rfl, rfl, by decide⟩

/-- C3 (amended): when the zero-iteration fast path is taken, no body
validation is performed (neither `CHECK_VALID_NODE` executes) and no loop
construct or executable body function is created; however, the body graph
itself is instantiated unconditionally before the fast-path decision. -/
theorem c3_fast_path_effects (op : LoopOp)
    (h1 : is_constant op.input1 = true)
    (h2 : cast_vector_bool_first op.input1 = false) :
    loop op = ([Event.bodyInstantiated],
      Except.ok { outputs := op.carried ++ op.carried, loop_node := none }) ∧
    Event.validatedParams ∉ (loop op).1 ∧
    Event.validatedOutputs ∉ (loop op).1 ∧
    Event.bodyInstantiated ∈ (loop op).1 := by
  have hl := loop_eq_fastPath op (resolve_fastPath_of _ h1 h2)
  refine ⟨hl, ?_, ?_, ?_⟩ <;> simp [hl]

/-- Witness for C3's amended theorem at a concrete operation. -/
theorem c3_fast_path_effects_witness :
    loop c3_example = ([Event.bodyInstantiated],
      Except.ok { outputs := c3_example.carried ++ c3_example.carried
                  loop_node := none }) :=
  (c3_fast_path_effects c3_example rfl rfl).1

/-- C4: for every operation whose input 1 is a compile-time constant
casting to `false`, the importer returns, without creating a loop
construct, the list `carried ++ carried` — of length `2k`, with both the
first `k` entries and the last `k` entries equal, element for element, to
the operation's initial carried-dependency inputs. -/
theorem c4_zero_iteration_outputs (op : LoopOp)
    (h1 : is_constant op.input1 = true)
    (h2 : cast_vector_bool_first op.input1 = false) :
    (loop op).2 = Except.ok
      { outputs := op.carried ++ op.carried, loop_node := none } ∧
    (op.carried ++ op.carried).length = 2 * op.carried.length ∧
    (op.carried ++ op.carried).take op.carried.length = op.carried ∧
    (op.carried ++ op.carried).drop op.carried.length = op.carried := by
  have hl := loop_eq_fastPath op (resolve_fastPath_of _ h1 h2)
  refine ⟨by rw [hl], ?_, List.take_left _ _, List.drop_left _ _⟩
  simp [List.length_append, two_mul]

/-- Witness for C4 at a concrete operation with two carried
dependencies. -/
theorem c4_zero_iteration_outputs_witness :
    (loop c4_example).2 = Except.ok
      { outputs := c4_example.carried ++ c4_example.carried, loop_node := none } ∧
    (c4_example.carried ++ c4_example.carried).take c4_example.carried.length =
      c4_example.carried :=
  ⟨(c4_zero_iteration_outputs c4_example rfl rfl).1,
   (c4_zero_iteration_outputs c4_example rfl rfl).2.2.1⟩

/-- C5: on the general path, a body whose condition output (position 0)
is a `LogicalOr` node whose second operand is a boolean constant with
first element `false` — and exactly such bodies, as the first conjunct
characterizes — has its condition output replaced by a fresh compile-time
constant `{true}` in the built body function, with no diagnostic; for
every other condition output shape the output is passed through unchanged
and the non-fatal `NGRAPH_WARN` diagnostic is recorded. -/
theorem c5_condition_rewrite (op : LoopOp) (c : Value) (cs : List Value)
    (hout : op.body.outputs = c :: cs)
    (hfp : resolve_termination_cond op.input1 ≠ CondResolution.fastPath)
    (hp : op.carried.length + 2 ≤ op.body.params.length)
    (ho : op.carried.length + 1 ≤ op.body.outputs.length) :
    (is_termination_condition_always_true c = true ↔
      ∃ sh a s2 r2, c = Value.logicalOr sh a (Value.constBool s2 false r2)) ∧
    (is_termination_condition_always_true c = true →
      (∃ r lp, (loop op).2 = Except.ok r ∧ r.loop_node = some lp ∧
        lp.body_results.getD 0 Value.null = Value.constBool [1] true []) ∧
      Event.warnedUnsupportedCondition ∉ (loop op).1) ∧
    (is_termination_condition_always_true c = false →
      (∃ r lp, (loop op).2 = Except.ok r ∧ r.loop_node = some lp ∧
        lp.body_results.getD 0 Value.null = c) ∧
      Event.warnedUnsupportedCondition ∈ (loop op).1) := by
  cases hres : resolve_termination_cond op.input1 with
  | fastPath => exact absurd hres hfp
  | resolved tc =>
    have hl := loop_eq_resolved op tc hres
    have hmain := loop_general_ok_eq op (resolve_trip_count op.input0) tc c cs hout hp ho
    have hsnd : (loop op).2 =
        Except.ok (general_result op (resolve_trip_count op.input0) tc c cs) := by
      rw [hl, hmain]
    have hfst : (loop op).1 = Event.bodyInstantiated :: general_trace c := by
      rw [hl, hmain]
    refine ⟨?_, ?_, ?_⟩
    · constructor
      · intro ht
        cases c with
        | logicalOr sh a b =>
          cases b with
          | constBool s2 f r2 =>
            simp only [is_termination_condition_always_true, beq_iff_eq] at ht
            exact ⟨sh, a, s2, r2, by rw [ht]⟩
          | null => simp [is_termination_condition_always_true] at ht
          | runtime id s => simp [is_termination_condition_always_true] at ht
          | constI64 s f r => simp [is_termination_condition_always_true] at ht
          | logicalOr sh2 x y => simp [is_termination_condition_always_true] at ht
          | unsqueeze v ax => simp [is_termination_condition_always_true] at ht
          | iterValue v it => simp [is_termination_condition_always_true] at ht
          | concatSlices v a1 a2 a3 a4 a5 =>
            simp [is_termination_condition_always_true] at ht
        | null => simp [is_termination_condition_always_true] at ht
        | runtime id s => simp [is_termination_condition_always_true] at ht
        | constI64 s f r => simp [is_termination_condition_always_true] at ht
        | constBool s f r => simp [is_termination_condition_always_true] at ht
        | unsqueeze v ax => simp [is_termination_condition_always_true] at ht
        | iterValue v it => simp [is_termination_condition_always_true] at ht
        | concatSlices v a1 a2 a3 a4 a5 =>
          simp [is_termination_condition_always_true] at ht
      · rintro ⟨sh, a, s2, r2, rfl⟩
        rfl
    · intro ht
      constructor
      · refine ⟨general_result op (resolve_trip_count op.input0) tc c cs, _, hsnd, rfl, ?_⟩
        simp [general_result, general_body_results, ht, true_const]
      · rw [hfst]
        simp [general_trace, ht]
    · intro ht
      constructor
      · refine ⟨general_result op (resolve_trip_count op.input0) tc c cs, _, hsnd, rfl, ?_⟩
        simp [general_result, general_body_results, ht]
      · rw [hfst]
        simp [general_trace, ht]

/-- Witness for C5 at a concrete operation whose body condition output
matches the identity pattern: no diagnostic is recorded. -/
theorem c5_condition_rewrite_witness :
    Event.warnedUnsupportedCondition ∉ (loop c5_example).1 :=
  ((c5_condition_rewrite c5_example
      (Value.logicalOr none (Value.runtime 30 none) (Value.constBool [] false []))
      [] rfl (by decide) (by decide) (by decide)).2.1 rfl).2

/-- C6: the scan-output rank normalizer.  It preserves the length of the
body output list; an output at a scan position (index at least `k + 1`)
with statically known rank-0 shape is replaced by an `Unsqueeze` at axis
0, whose shape gains exactly one leading dimension of size 1
(`some [] ↦ some [1]`); and every output at a non-scan position, or with
unknown shape, or with non-scalar static shape, is left unchanged. -/
theorem c6_scan_normalizer (k j : Nat) (outs : List Value) :
    (normalize_scan_outputs k outs).length = outs.length ∧
    (k + 1 ≤ j → (outs.getD j Value.null).shape = some [] →
      (normalize_scan_outputs k outs).getD j Value.null =
          Value.unsqueeze (outs.getD j Value.null) 0 ∧
        ((normalize_scan_outputs k outs).getD j Value.null).shape = some [1]) ∧
    (j < k + 1 →
      (normalize_scan_outputs k outs).getD j Value.null = outs.getD j Value.null) ∧
    ((outs.getD j Value.null).shape = none →
      (normalize_scan_outputs k outs).getD j Value.null = outs.getD j Value.null) ∧
    (∀ d ds, (outs.getD j Value.null).shape = some (d :: ds) →
      (normalize_scan_outputs k outs).getD j Value.null = outs.getD j Value.null) := by
  have hg := normalize_scan_outputs_getD k j outs
  refine ⟨normalize_scan_outputs_length k outs, ?_, ?_, ?_, ?_⟩
  · intro hj hs
    have hscal := is_static_scalar_of_shape_nil _ hs
    rw [hg, if_pos ⟨hj, hscal⟩]
    refine ⟨rfl, ?_⟩
    simp only [Value.shape, hs]
    rfl
  · intro hj
    rw [hg, if_neg]
    rintro ⟨hge, -⟩
    omega
  · intro hs
    rw [hg, if_neg]
    rintro ⟨-, hscal⟩
    rw [is_static_scalar_eq_false_of_none _ hs] at hscal
    exact Bool.noConfusion hscal
  · intro d ds hs
    rw [hg, if_neg]
    rintro ⟨-, hscal⟩
    rw [is_static_scalar_eq_false_of_cons _ d ds hs] at hscal
    exact Bool.noConfusion hscal

/-- Witness for C6: a static-scalar output at scan position 1 (for k = 0)
is promoted to an `Unsqueeze` at axis 0. -/
theorem c6_scan_normalizer_witness :
    (normalize_scan_outputs 0
        [Value.runtime 20 none, Value.runtime 22 (some [])]).getD 1 Value.null =
      Value.unsqueeze (Value.runtime 22 (some [])) 0 :=
  ((c6_scan_normalizer 0 1
      [Value.runtime 20 none, Value.runtime 22 (some [])]).2.1 (by decide) rfl).1

/-- C7: on the general path with `k` carried dependencies and body outputs
of length `k + 1 + m`, the returned output list has length `k + m`: first
the `k` final values in carried order, each `get_iter_value(out, -1)` of
the corresponding body output, then the `m` scan outputs in declaration
order, each `get_concatenated_slices(out, 0, 1, 1, -1, 0)`. -/
theorem c7_output_order (op : LoopOp)
    (hfp : resolve_termination_cond op.input1 ≠ CondResolution.fastPath)
    (hp : op.carried.length + 2 ≤ op.body.params.length)
    (ho : op.carried.length + 1 ≤ op.body.outputs.length) :
    ∃ r lp, (loop op).2 = Except.ok r ∧ r.loop_node = some lp ∧
      lp.body_results.length = op.body.outputs.length ∧
      r.outputs =
        ((lp.body_results.drop 1).take op.carried.length).map
            (fun v => Value.iterValue v (-1)) ++
          (lp.body_results.drop (op.carried.length + 1)).map
            (fun v => Value.concatSlices v 0 1 1 (-1) 0) ∧
      r.outputs.length =
        op.carried.length + (op.body.outputs.length - (op.carried.length + 1)) := by
  cases hres : resolve_termination_cond op.input1 with
  | fastPath => exact absurd hres hfp
  | resolved tc =>
    have hne : op.body.outputs ≠ [] := by
      intro hx
      rw [hx] at ho
      simp at ho
    obtain ⟨b, bs, hout⟩ := List.exists_cons_of_ne_nil hne
    have hl := loop_eq_resolved op tc hres
    have hmain := loop_general_ok_eq op (resolve_trip_count op.input0) tc b bs hout hp ho
    have hsnd : (loop op).2 =
        Except.ok (general_result op (resolve_trip_count op.input0) tc b bs) := by
      rw [hl, hmain]
    have hBlen : (general_body_results op.carried.length b bs).length =
        op.body.outputs.length := by
      simp [general_body_results, normalize_scan_outputs_from_length, hout]
    refine ⟨general_result op (resolve_trip_count op.input0) tc b bs, _,
      hsnd, rfl, hBlen, rfl, ?_⟩
    simp only [general_result, List.length_append, List.length_map, List.length_take,
      List.length_drop, hBlen]
    omega

/-- Witness for C7 at a concrete operation with one carried dependency and
one scan output. -/
theorem c7_output_order_witness :
    ∃ r lp, (loop c7_example).2 = Except.ok r ∧ r.loop_node = some lp ∧
      lp.body_results.length = c7_example.body.outputs.length ∧
      r.outputs =
        ((lp.body_results.drop 1).take c7_example.carried.length).map
            (fun v => Value.iterValue v (-1)) ++
          (lp.body_results.drop (c7_example.carried.length + 1)).map
            (fun v => Value.concatSlices v 0 1 1 (-1) 0) ∧
      r.outputs.length =
        c7_example.carried.length +
          (c7_example.body.outputs.length - (c7_example.carried.length + 1)) :=
  c7_output_order c7_example (by decide) (by decide) (by decide)

/-- C8: the resolved termination condition is the compile-time boolean
constant `{true}` whenever input 1 is the null sentinel, a boolean
constant with first element `true`, or a non-constant runtime value. -/
theorem c8_condition_resolution (input1 : Value)
    (h : input1 = Value.null
      ∨ (∃ s rest, input1 = Value.constBool s true rest)
      ∨ (is_null input1 = false ∧ is_constant input1 = false)) :
    resolve_termination_cond input1 =
      CondResolution.resolved (Value.constBool [1] true []) := by
  rcases h with rfl | ⟨s, rest, rfl⟩ | ⟨h1, h2⟩
  · rfl
  · rfl
  · simp [resolve_termination_cond, h1, h2, true_const]

/-- Witness for C8 at the null sentinel. -/
theorem c8_condition_resolution_witness :
    resolve_termination_cond Value.null =
      CondResolution.resolved (Value.constBool [1] true []) :=
  c8_condition_resolution Value.null (Or.inl rfl)

/-- C9: the resolved trip count is the i64 constant `{-1}` (the unbounded
sentinel) when input 0 is the null sentinel, and input 0 itself otherwise;
whichever loop construct the importer creates carries exactly the resolved
trip count. -/
theorem c9_trip_count_resolution (op : LoopOp) :
    (is_null op.input0 = true →
      resolve_trip_count op.input0 = Value.constI64 [1] (-1) []) ∧
    (is_null op.input0 = false → resolve_trip_count op.input0 = op.input0) ∧
    (∀ r lp, (loop op).2 = Except.ok r → r.loop_node = some lp →
      lp.trip_count = resolve_trip_count op.input0) := by
  refine ⟨?_, ?_, ?_⟩
  · intro h
    simp [resolve_trip_count, h]
  · intro h
    simp [resolve_trip_count, h]
  · intro r lp hr hlp
    cases hres : resolve_termination_cond op.input1 with
    | fastPath =>
      rw [loop_eq_fastPath op hres] at hr
      injection hr with hr
      rw [← hr] at hlp
      exact Option.noConfusion hlp
    | resolved c =>
      rw [loop_eq_resolved op c hres] at hr
      exact (loop_general_ok_node op (resolve_trip_count op.input0) c r lp hr hlp).1

/-- Witness for C9: the null sentinel resolves to the `{-1}` constant, a
concrete runtime input is passed through. -/
theorem c9_trip_count_resolution_witness :
    resolve_trip_count c9_null_example.input0 = Value.constI64 [1] (-1) [] ∧
    resolve_trip_count c9_direct_example.input0 = c9_direct_example.input0 :=
  ⟨(c9_trip_count_resolution c9_null_example).1 rfl,
   (c9_trip_count_resolution c9_direct_example).2.1 rfl⟩

/-- C10: a compile-time constant input 1 is classified by its first
element only: if that element is `false` the zero-iteration fast path is
taken, and if it is `true` the condition collapses to the synthesized
constant `{true}` — in both cases regardless of the remaining elements. -/
theorem c10_first_element_classification (op : LoopOp) (s : List Nat) (b : Bool)
    (rest : List Bool) (h : op.input1 = Value.constBool s b rest) :
    (b = false →
      loop op = ([Event.bodyInstantiated],
        Except.ok { outputs := op.carried ++ op.carried
                    loop_node := none })) ∧
    (b = true →
      resolve_termination_cond op.input1 =
        CondResolution.resolved (Value.constBool [1] true [])) := by
  constructor
  · rintro rfl
    exact loop_eq_fastPath op (by rw [h]; rfl)
  · rintro rfl
    rw [h]
    rfl

/-- Witness for C10 at a three-element boolean constant `{false, true,
true}`: the fast path is taken although later elements are `true`. -/
theorem c10_first_element_classification_witness :
    loop c10_example = ([Event.bodyInstantiated],
      Except.ok { outputs := c10_example.carried ++ c10_example.carried
                  loop_node := none }) :=
  (c10_first_element_classification c10_example [3] false [true, true] rfl).1 rfl

end OnnxLoop
